import Mathlib

/-!
Shallow embedding of the Kompite arbitration-engine core
(`backend/app/game_engine.py`, `backend/app/websocket_handler.py`,
`backend/app/ludo_engine.py`, `backend/app/jitter_detector.py`,
`backend/app/security.py`) together with theorems settling the
specification claims about it.

Conventions used throughout:
* Python `Decimal` and `float` values are modelled as `ℚ`
  (`Decimal.quantize(Decimal("0.01"))` with the default
  `ROUND_HALF_EVEN` becomes `quantize2`).
* SHA-256 hex digests are modelled by an explicit hash-function
  parameter `H : String → String` (resp. `bh : String → ℚ → String`
  for `TreasuryLedger._compute_balance_hash`); the embedded code is
  generic in the digest function, exactly as the source algorithms are.
* `time.time()` timestamps are passed in as explicit `now` arguments.
* Python `dict`s keyed by ids become association lists; code that can
  raise returns `Option`/`Except`.
-/

namespace Kompite

/-! ## Decimal arithmetic (`decimal.Decimal`, 2-place quantization) -/

/-- Round a rational to the nearest integer, ties to the even integer
(Python `Decimal`'s default `ROUND_HALF_EVEN`). -/
def roundHalfEven (q : ℚ) : ℤ :=
  let f : ℤ := ⌊q⌋
  let frac : ℚ := q - f
  if frac < 1/2 then f
  else if 1/2 < frac then f + 1
  else if f % 2 = 0 then f else f + 1

/-- `x.quantize(Decimal("0.01"))`: round to two fractional digits,
half-even. -/
def quantize2 (q : ℚ) : ℚ :=
  (roundHalfEven (q * 100) : ℚ) / 100

/-! ## Rake (commission) system — `game_engine.py`, `RakeCalculator` -/

/-- `RakeLevel` enum. -/
inductive RakeLevel
  | SEMILLA
  | COMPETIDOR
  | PRO
deriving DecidableEq

/-- `RakeConfig` dataclass. -/
structure RakeConfig where
  level : RakeLevel
  min_bet : ℚ
  max_bet : ℚ
  rate : ℚ
deriving DecidableEq

/-- `RakeConfig.applies_to`. -/
def RakeConfig.applies_to (c : RakeConfig) (bet_amount : ℚ) : Bool :=
  decide (c.min_bet ≤ bet_amount ∧ bet_amount ≤ c.max_bet)

/-- `RakeCalculator.RAKE_TIERS`, last entry (`PRO`, the source's
`RAKE_TIERS[-1]` default). -/
def proTier : RakeConfig :=
  { level := RakeLevel.PRO, min_bet := 51, max_bet := 999999, rate := 5/100 }

/-- `RakeCalculator.RAKE_TIERS`. -/
def RAKE_TIERS : List RakeConfig :=
  [ { level := RakeLevel.SEMILLA, min_bet := 1, max_bet := 10, rate := 8/100 },
    { level := RakeLevel.COMPETIDOR, min_bet := 11, max_bet := 50, rate := 6/100 },
    proTier ]

/-- `RakeCalculator.get_rake_tier`: first tier whose range check passes,
defaulting to the last (`PRO`) tier. -/
def get_rake_tier (bet_amount : ℚ) : RakeConfig :=
  match RAKE_TIERS.find? (fun t => t.applies_to bet_amount) with
  | some t => t
  | none => proTier

/-- Result dictionary of `RakeCalculator.calculate_fee`. -/
structure FeeResult where
  bet_per_player : ℚ
  fee_per_player : ℚ
  total_pot : ℚ
  total_fee : ℚ
  winner_prize : ℚ
  rake_rate : ℚ
  rake_level : RakeLevel
deriving DecidableEq

/-- `RakeCalculator.calculate_fee` (the source's default is
`num_players = 2`; callers below pass it explicitly). -/
def calculate_fee (bet_amount : ℚ) (num_players : ℕ) : FeeResult :=
  let tier := get_rake_tier bet_amount
  let fee_per_player := quantize2 (bet_amount * tier.rate)
  let total_pot := bet_amount * num_players
  let total_fee := fee_per_player * num_players
  { bet_per_player := bet_amount
    fee_per_player := fee_per_player
    total_pot := total_pot
    total_fee := total_fee
    winner_prize := total_pot - total_fee
    rake_rate := tier.rate
    rake_level := tier.level }

/-! ## Treasury ledger — `game_engine.py`, `LedgerEntry` / `TreasuryLedger` -/

/-- `LedgerEntry.status` values. -/
inductive EntryStatus
  | PENDING
  | COMMITTED
  | ROLLED_BACK
deriving DecidableEq

/-- `LedgerEntry` dataclass (triple-entry settlement record).
`timestamp` is the `now` argument threaded through the embedding; the
four balance hashes are produced by the hash-function parameter `bh`
standing for `TreasuryLedger._compute_balance_hash`. -/
structure LedgerEntry where
  entry_id : String
  match_id : String
  timestamp : ℕ
  debitor_id : String
  creditor_id : String
  debit_amount : ℚ
  credit_amount : ℚ
  rake_amount : ℚ
  treasury_id : String
  debitor_balance_hash_before : String
  debitor_balance_hash_after : String
  creditor_balance_hash_before : String
  creditor_balance_hash_after : String
  status : EntryStatus
deriving DecidableEq

/-- `LedgerEntry.validate_balance_equation`. -/
def LedgerEntry.validate_balance_equation (e : LedgerEntry) : Bool :=
  decide (e.debit_amount = e.credit_amount + e.rake_amount)

/-- `TreasuryLedger` mutable state (`pending_entries` dict as an
association list keyed by `entry_id`). -/
structure TreasuryLedger where
  entries : List LedgerEntry
  treasury_balance : ℚ
  pending_entries : List (String × LedgerEntry)
deriving DecidableEq

/-- `TreasuryLedger()` constructor. -/
def TreasuryLedger.init : TreasuryLedger :=
  { entries := [], treasury_balance := 0, pending_entries := [] }

/-- `dict[key] = value` on an association list: replace an existing
binding in place, otherwise append. -/
def dictInsert {α : Type} (k : String) (v : α) :
    List (String × α) → List (String × α)
  | [] => [(k, v)]
  | (k', v') :: rest =>
      if k' = k then (k, v) :: rest else (k', v') :: dictInsert k v rest

/-- `dict.get(key)` on an association list. -/
def dictGet {α : Type} (k : String) : List (String × α) → Option α
  | [] => none
  | (k', v') :: rest => if k' = k then some v' else dictGet k rest

/-- `del dict[key]` on an association list. -/
def dictErase {α : Type} (k : String) :
    List (String × α) → List (String × α)
  | [] => []
  | (k', v') :: rest =>
      if k' = k then rest else (k', v') :: dictErase k rest

/-- `TreasuryLedger.create_match_settlement`.  `bh` stands for
`self._compute_balance_hash` (SHA-256 of `f"{user_id}:{balance}"`); the
`ValueError` raised when the entry fails its own
`validate_balance_equation` becomes `Except.error`. -/
def create_match_settlement (bh : String → ℚ → String) (now : ℕ)
    (led : TreasuryLedger) (match_id winner_id loser_id : String)
    (bet_amount winner_balance_before loser_balance_before : ℚ) :
    Except String (TreasuryLedger × LedgerEntry) :=
  let rake_result := calculate_fee bet_amount 2
  let entry_id := "LED-" ++ match_id.take 8 ++ "-" ++ toString now
  let debit_amount := bet_amount
  let credit_amount := rake_result.winner_prize
  let rake_amount := rake_result.total_fee
  let loser_balance_after := loser_balance_before - debit_amount
  let winner_balance_after := winner_balance_before + credit_amount
  let entry : LedgerEntry :=
    { entry_id := entry_id
      match_id := match_id
      timestamp := now
      debitor_id := loser_id
      creditor_id := winner_id
      debit_amount := debit_amount
      credit_amount := credit_amount
      rake_amount := rake_amount
      treasury_id := "LK_TREASURY"
      debitor_balance_hash_before := bh loser_id loser_balance_before
      debitor_balance_hash_after := bh loser_id loser_balance_after
      creditor_balance_hash_before := bh winner_id winner_balance_before
      creditor_balance_hash_after := bh winner_id winner_balance_after
      status := EntryStatus.PENDING }
  if entry.validate_balance_equation then
    Except.ok
      ({ led with pending_entries := dictInsert entry_id entry led.pending_entries },
       entry)
  else
    Except.error ("Balance equation failed for entry " ++ entry_id)

/-- `TreasuryLedger.commit_entry`. -/
def commit_entry (led : TreasuryLedger) (entry_id : String) :
    TreasuryLedger × Bool :=
  match dictGet entry_id led.pending_entries with
  | none => (led, false)
  | some entry =>
      let entry' := { entry with status := EntryStatus.COMMITTED }
      ({ led with
          entries := led.entries ++ [entry']
          treasury_balance := led.treasury_balance + entry'.rake_amount
          pending_entries := dictErase entry_id led.pending_entries },
       true)

/-- `TreasuryLedger.rollback_entry`. -/
def rollback_entry (led : TreasuryLedger) (entry_id : String) :
    TreasuryLedger × Bool :=
  match dictGet entry_id led.pending_entries with
  | none => (led, false)
  | some _entry =>
      ({ led with pending_entries := dictErase entry_id led.pending_entries },
       true)

/-! ## Match FSM and game-over handler — `websocket_handler.py` -/

/-- `MatchState` enum. -/
inductive MatchState
  | MATCHMAKING
  | LOCKED
  | IN_PROGRESS
  | VALIDATION
  | SETTLEMENT
  | COMPLETED
  | DISPUTED
  | CANCELLED
deriving DecidableEq

/-- `MatchRoom` (the fields used by the FSM and the ludo game-over
handler; `players` merges the source's `players` dict with its values'
`balance_at_lock`, keyed by user id). -/
structure MatchRoom where
  match_id : String
  state : MatchState
  bet_amount : ℚ
  players : List (String × ℚ)
  locked_at : Option ℕ
  started_at : Option ℕ
  ledger_entry_id : Option String
deriving DecidableEq

/-- The `valid_transitions` dictionary of
`MatchManager.transition_state`. -/
def valid_transitions : MatchState → List MatchState
  | MatchState.MATCHMAKING => [MatchState.LOCKED, MatchState.CANCELLED]
  | MatchState.LOCKED => [MatchState.IN_PROGRESS, MatchState.CANCELLED]
  | MatchState.IN_PROGRESS => [MatchState.VALIDATION, MatchState.DISPUTED]
  | MatchState.VALIDATION => [MatchState.SETTLEMENT, MatchState.DISPUTED]
  | MatchState.SETTLEMENT => [MatchState.COMPLETED, MatchState.DISPUTED]
  | MatchState.DISPUTED => [MatchState.COMPLETED, MatchState.CANCELLED]
  | MatchState.COMPLETED => []
  | MatchState.CANCELLED => []

/-- `MatchManager.transition_state` for a room present in
`active_matches` (a missing room returns `False` in the source without
touching anything).  Returns the updated room and the success flag. -/
def transition_state (now : ℕ) (room : MatchRoom) (new_state : MatchState) :
    MatchRoom × Bool :=
  if new_state ∈ valid_transitions room.state then
    let room' := { room with state := new_state }
    let room' :=
      if new_state = MatchState.LOCKED then
        { room' with locked_at := some now }
      else if new_state = MatchState.IN_PROGRESS then
        { room' with started_at := some now }
      else room'
    (room', true)
  else
    (room, false)

/-- `_settle_escrow`: the durable-store escrow settlement is a stub in
the source (all statements are a TODO comment) and always returns
`True`. -/
def settle_escrow : Bool :=
  true

/-- `_handle_ludo_game_over`, restricted to its effect on the room, the
treasury ledger and the emitted `SETTLEMENT_ERROR` event (the returned
`Bool`).  `Except.error` models the uncaught `KeyError` when the winner
or loser id is not a room player (that lookup happens before the `try`
block).  The source catches every settlement exception, emits the error
event, and still runs the final `transition_state(..., COMPLETED)`. -/
def handle_ludo_game_over (bh : String → ℚ → String) (now : ℕ)
    (room : MatchRoom) (led : TreasuryLedger) (winner : Option String) :
    Except String (MatchRoom × TreasuryLedger × Bool) :=
  let room1 := (transition_state now room MatchState.SETTLEMENT).1
  let settled : Except String (MatchRoom × TreasuryLedger × Bool) :=
    match winner, room1.players.map Prod.fst with
    | some winner_id, [p0, p1] =>
        let loser_id := if p1 = winner_id then p0 else p1
        match dictGet winner_id room1.players, dictGet loser_id room1.players with
        | some winner_balance, some loser_balance =>
            match create_match_settlement bh now led room1.match_id winner_id
                loser_id room1.bet_amount winner_balance loser_balance with
            | Except.error _ => Except.ok (room1, led, true)
            | Except.ok (led1, entry) =>
                let room2 := { room1 with ledger_entry_id := some entry.entry_id }
                if settle_escrow then
                  Except.ok (room2, (commit_entry led1 entry.entry_id).1, false)
                else
                  Except.ok (room2, (rollback_entry led1 entry.entry_id).1, true)
        | _, _ => Except.error "KeyError"
    | _, _ => Except.ok (room1, led, false)
  match settled with
  | Except.error e => Except.error e
  | Except.ok (room2, led2, settlement_error) =>
      let room3 := (transition_state now room2 MatchState.COMPLETED).1
      Except.ok (room3, led2, settlement_error)

/-! ## Provably-fair dice — `ludo_engine.py`, `ProvablyFairDice`

The SHA-256 hex digest `hashlib.sha256(...).hexdigest()` is the
hash-function parameter `H : String → String`; the dice algorithm is
generic in it.  `int(s, 16)` on a possibly non-hex prefix is modelled
by the partial parser `parseHexNat?`. -/

/-- Value of one hex digit, `none` on a non-hex character
(where Python `int(_, 16)` raises `ValueError`). -/
def hexDigitVal? (c : Char) : Option ℕ :=
  if '0' ≤ c ∧ c ≤ '9' then some (c.toNat - '0'.toNat)
  else if 'a' ≤ c ∧ c ≤ 'f' then some (c.toNat - 'a'.toNat + 10)
  else if 'A' ≤ c ∧ c ≤ 'F' then some (c.toNat - 'A'.toNat + 10)
  else none

/-- `int(s, 16)`: parse a base-16 natural, failing on the empty string
or on a non-hex character. -/
def parseHexNat? (s : String) : Option ℕ :=
  match s.toList with
  | [] => none
  | cs =>
      cs.foldl
        (fun acc c =>
          match acc, hexDigitVal? c with
          | some n, some d => some (n * 16 + d)
          | _, _ => none)
        (some 0)

/-- `DiceRoll` dataclass (`server_seed` carries only the public hash,
exactly as in the source; `timestamp` is the threaded `now`). -/
structure DiceRoll where
  value : ℕ
  server_seed : String
  client_seed : String
  nonce : ℕ
  timestamp : ℕ
  hash_proof : String
deriving DecidableEq

/-- `ProvablyFairDice` mutable state.  `server_seed_hash` is
`H server_seed` at construction time; `client_seeds` is the
player-id-keyed dict. -/
structure ProvablyFairDice where
  server_seed : String
  server_seed_hash : String
  client_seeds : List (String × String)
  nonce : ℕ
deriving DecidableEq

/-- `ProvablyFairDice.set_client_seed`. -/
def ProvablyFairDice.set_client_seed (d : ProvablyFairDice)
    (player_id seed : String) : ProvablyFairDice :=
  { d with client_seeds := dictInsert player_id seed d.client_seeds }

/-- The combined string `f"{server_seed}:{client_seed}:{nonce}"`. -/
def combinedSeed (server_seed client_seed : String) (nonce : ℕ) : String :=
  server_seed ++ ":" ++ client_seed ++ ":" ++ toString nonce

/-- `ProvablyFairDice.roll`.  Increments the shared nonce, hashes
`server_seed:client_seed:nonce`, reads the first 8 hex digits as `N`
and returns `value = N % 6 + 1` with the 16-hex-digit proof. -/
def ProvablyFairDice.roll (H : String → String) (now : ℕ)
    (d : ProvablyFairDice) (player_id : String) :
    Option (ProvablyFairDice × DiceRoll) :=
  let nonce' := d.nonce + 1
  let client_seed := (dictGet player_id d.client_seeds).getD "default"
  let combined := combinedSeed d.server_seed client_seed nonce'
  let hash_result := H combined
  match parseHexNat? (hash_result.take 8) with
  | none => none
  | some numeric_value =>
      let dice_value := numeric_value % 6 + 1
      some ({ d with nonce := nonce' },
        { value := dice_value
          server_seed := d.server_seed_hash
          client_seed := client_seed
          nonce := nonce'
          timestamp := now
          hash_proof := hash_result.take 16 })

/-- `ProvablyFairDice.verify_roll`: post-game re-derivation of a roll
from the revealed server seed. -/
def verify_roll (H : String → String) (roll : DiceRoll)
    (revealed_server_seed : String) : Option Bool :=
  let combined := combinedSeed revealed_server_seed roll.client_seed roll.nonce
  let hash_result := H combined
  match parseHexNat? (hash_result.take 8) with
  | none => none
  | some numeric_value =>
      let expected_value := numeric_value % 6 + 1
      some (decide (expected_value = roll.value) &&
            decide (hash_result.take 16 = roll.hash_proof))

/-! ## Ludo engine — `ludo_engine.py`, `LudoEngine` -/

/-- `PieceState` enum. -/
inductive PieceState
  | HOME
  | ACTIVE
  | SAFE_ZONE
  | FINISHED
deriving DecidableEq

/-- `LudoGameState` enum. -/
inductive LudoGameState
  | WAITING
  | ROLLING
  | MOVING
  | COMPLETED
  | ABANDONED
deriving DecidableEq

/-- `PlayerColor` enum. -/
inductive PlayerColor
  | RED
  | BLUE
  | GREEN
  | YELLOW
deriving DecidableEq

/-- `LudoPiece` dataclass (`position = -1` in home, `-2` finished). -/
structure LudoPiece where
  piece_id : ℕ
  owner : PlayerColor
  state : PieceState
  position : ℤ
  safe_zone_pos : ℤ
deriving DecidableEq

/-- `LudoPlayer` dataclass (timing field `last_action` omitted: it is
never read by the game logic). -/
structure LudoPlayer where
  user_id : String
  color : PlayerColor
  pieces : List LudoPiece
  pieces_finished : ℕ
  captures_made : ℕ
  sixes_rolled : ℕ
  is_connected : Bool
deriving DecidableEq

/-- `LudoMove` dataclass. -/
structure LudoMove where
  move_id : ℕ
  player : PlayerColor
  piece_id : ℕ
  dice_roll : DiceRoll
  from_position : ℤ
  to_position : ℤ
  captured_piece : Option (PlayerColor × ℕ)
  entered_safe_zone : Bool
  finished : Bool
  timestamp : ℕ
deriving DecidableEq

/-- One entry of the list `_get_available_moves` returns. -/
structure AvailableMove where
  piece_id : ℕ
  from_pos : ℤ
  to_pos : ℤ
  action : String
deriving DecidableEq

/-- `LudoEngine` mutable state.  The source keeps a `players` dict and
a parallel `player_order` list built together from the same list and
never modified afterwards; both are represented by the single ordered
list `players` here. -/
structure LudoEngine where
  match_id : String
  state : LudoGameState
  players : List LudoPlayer
  current_player_index : ℕ
  dice : ProvablyFairDice
  current_roll : Option DiceRoll
  consecutive_sixes : ℕ
  can_roll_again : Bool
  moves_history : List LudoMove
  move_counter : ℕ
  winner : Option String
  rankings : List String
  started_at : ℕ
  turn_started_at : ℕ
deriving DecidableEq

/-- `LudoConfig.SAFE_POSITIONS`. -/
def SAFE_POSITIONS : List ℤ :=
  [0, 8, 13, 21, 26, 34, 39, 47]

/-- `LudoEngine.get_start_position`. -/
def get_start_position : PlayerColor → ℤ
  | PlayerColor.RED => 0
  | PlayerColor.BLUE => 13
  | PlayerColor.GREEN => 26
  | PlayerColor.YELLOW => 39

/-- `LudoEngine.get_safe_zone_entry` (`%` is Python-style modulo, which
`Int.emod` matches for the positive modulus 52). -/
def get_safe_zone_entry (color : PlayerColor) : ℤ :=
  (get_start_position color + 52 - 1) % 52

/-- Result dictionary of `LudoEngine._can_move_piece` (the `action`
strings are the source's `"exit"`, `"move"`, `"enter_safe"`,
`"safe_move"`, `"finish"`). -/
structure MoveInfo where
  to_pos : ℤ
  action : String
deriving DecidableEq

/-- `LudoEngine._can_move_piece` (its `player` lookup is dead code in
the source and is dropped).  `HOME_STRETCH = 5`, `EXIT_ROLL = 6`,
`BOARD_SIZE = 52`. -/
def can_move_piece (piece : LudoPiece) (dice_value : ℕ) : Option MoveInfo :=
  match piece.state with
  | PieceState.HOME =>
      if dice_value = 6 then
        some { to_pos := get_start_position piece.owner, action := "exit" }
      else none
  | PieceState.FINISHED => none
  | PieceState.SAFE_ZONE =>
      let new_safe_pos := piece.safe_zone_pos + (dice_value : ℤ)
      if new_safe_pos = 5 + 1 then some { to_pos := -2, action := "finish" }
      else if 5 + 1 < new_safe_pos then none
      else some { to_pos := new_safe_pos, action := "safe_move" }
  | PieceState.ACTIVE =>
      let new_pos := (piece.position + (dice_value : ℤ)) % 52
      let safe_zone_entry := get_safe_zone_entry piece.owner
      let steps_to_entry := (safe_zone_entry - piece.position) % 52
      if steps_to_entry < (dice_value : ℤ) ∧ 0 ≤ steps_to_entry then
        let remaining := (dice_value : ℤ) - steps_to_entry - 1
        if remaining ≤ 5 then
          if remaining = 5 then some { to_pos := -2, action := "finish" }
          else some { to_pos := remaining, action := "enter_safe" }
        else none
      else
        some { to_pos := new_pos, action := "move" }

/-- `LudoEngine._get_available_moves` for the current player. -/
def get_available_moves (player : LudoPlayer) (dice_value : ℕ) :
    List AvailableMove :=
  player.pieces.filterMap fun piece =>
    (can_move_piece piece dice_value).map fun move_info =>
      { piece_id := piece.piece_id
        from_pos := piece.position
        to_pos := move_info.to_pos
        action := move_info.action }

/-- `LudoEngine._next_turn` (the source's `len(self.player_order)` is
always positive; for an impossible empty player list Python would raise
where `% 0` here is the identity). -/
def next_turn (now : ℕ) (e : LudoEngine) : LudoEngine :=
  { e with
      current_player_index := (e.current_player_index + 1) % e.players.length
      current_roll := none
      consecutive_sixes := 0
      can_roll_again := false
      state := LudoGameState.ROLLING
      turn_started_at := now }

/-- The `if client_seed: self.dice.set_client_seed(...)` step of
`roll_dice` (Python truthiness: `None` and `""` are skipped). -/
def apply_client_seed (d : ProvablyFairDice) (user_id : String)
    (client_seed : Option String) : ProvablyFairDice :=
  match client_seed with
  | none => d
  | some cs => if cs = "" then d else d.set_client_seed user_id cs

/-- The result dictionaries `LudoEngine.roll_dice` can return. -/
inductive RollResult
  | errCannotRoll (state : LudoGameState)
  | errNotYourTurn
  | threeSixes (roll : DiceRoll) (next_player : String)
  | noMoves (roll : DiceRoll) (next_player : String)
  | awaitingMove (roll : DiceRoll) (available_moves : List AvailableMove)
      (can_roll_again : Bool)
deriving DecidableEq

/-- `LudoEngine.roll_dice`.  `none` models the unreachable internal
failures (current-player index out of range, non-hex digest). -/
def LudoEngine.roll_dice (H : String → String) (now : ℕ) (e : LudoEngine)
    (user_id : String) (client_seed : Option String) :
    Option (LudoEngine × RollResult) :=
  if e.state ≠ LudoGameState.ROLLING then
    some (e, RollResult.errCannotRoll e.state)
  else
    match e.players[e.current_player_index]? with
    | none => none
    | some player =>
        if user_id ≠ player.user_id then
          some (e, RollResult.errNotYourTurn)
        else
          let d1 := apply_client_seed e.dice user_id client_seed
          match ProvablyFairDice.roll H now d1 user_id with
          | none => none
          | some (d2, roll) =>
              let e1 := { e with dice := d2, current_roll := some roll }
              -- after the three-sixes check, both remaining branches
              -- compute available moves for the (unchanged) current player
              let cont : LudoEngine → Option (LudoEngine × RollResult) :=
                fun e2 =>
                  let available_moves := get_available_moves player roll.value
                  if available_moves.isEmpty then
                    let e3 := next_turn now e2
                    match e3.players[e3.current_player_index]? with
                    | none => none
                    | some p3 => some (e3, RollResult.noMoves roll p3.user_id)
                  else
                    some ({ e2 with state := LudoGameState.MOVING },
                      RollResult.awaitingMove roll available_moves
                        e2.can_roll_again)
              if roll.value = 6 then
                let sixes := e1.consecutive_sixes + 1
                if 3 ≤ sixes then
                  let e2 := next_turn now { e1 with consecutive_sixes := sixes }
                  match e2.players[e2.current_player_index]? with
                  | none => none
                  | some p2 => some (e2, RollResult.threeSixes roll p2.user_id)
                else
                  cont { e1 with consecutive_sixes := sixes, can_roll_again := true }
              else
                cont { e1 with consecutive_sixes := 0, can_roll_again := false }

/-! ## Jitter detector — `jitter_detector.py`, `JitterDetector`

Float RTTs, timestamps and scores are modelled as `ℚ`.  The
`JitterConfig` constants appear inline: `LATENCY_SPIKE_THRESHOLD = 500`,
`JITTER_THRESHOLD_STD = 2.5 = 5/2`, `SPIKE_WINDOW = 60`,
`MAX_SPIKES_BEFORE_FLAG = 3`. -/

/-- `ConnectionQuality` enum. -/
inductive ConnectionQuality
  | EXCELLENT
  | GOOD
  | FAIR
  | POOR
  | CRITICAL
deriving DecidableEq

/-- `DisconnectType` enum. -/
inductive DisconnectType
  | GENUINE
  | SUSPICIOUS
  | LAG_SWITCH
  | MASS_OUTAGE
deriving DecidableEq

/-- `HeartbeatSample` dataclass. -/
structure HeartbeatSample where
  timestamp : ℚ
  client_timestamp : ℚ
  round_trip_time : ℚ
  sequence_number : ℕ
  game_state : String
deriving DecidableEq

/-- `LatencyProfile` dataclass. -/
structure LatencyProfile where
  user_id : String
  baseline_rtt : ℚ
  baseline_std : ℚ
  current_rtt : ℚ
  samples : List HeartbeatSample
  spike_timestamps : List ℚ
  connection_quality : ConnectionQuality
  is_flagged : Bool
  flag_reason : String
  missed_heartbeats : ℕ
  last_heartbeat : ℚ
  spikes_during_critical : ℕ
  total_critical_moments : ℕ
deriving DecidableEq

/-- `JitterAnalysis` result (the `details` dict entries written by
`_analyze_jitter` become the `details_*` fields;
`details_critical_fraction` is its `critical_spike_ratio` entry). -/
structure JitterAnalysis where
  user_id : String
  timestamp : ℚ
  current_jitter : ℚ
  jitter_score : ℚ
  latency_trend : String
  is_suspicious : Bool
  disconnect_type : DisconnectType
  details_rtt : ℚ
  details_baseline_rtt : ℚ
  details_deviation : ℚ
  details_spike_count : ℕ
  details_connection_quality : ConnectionQuality
  details_critical_fraction : ℚ
  recommended_action : String
deriving DecidableEq

/-- `str.upper()`: `String.toUpper` re-expressed structurally over the
character list (the library version recurses by well-founded measure,
which blocks kernel evaluation; this is the same function). -/
def strUpper (s : String) : String :=
  String.mk (s.toList.map Char.toUpper)

/-- `JitterDetector._is_critical_moment`. -/
def is_critical_moment (game_state : String) : Bool :=
  ["SHOOTING", "DEFENDING", "PENALTY", "MATCH_POINT",
   "FINAL_MOVE", "WINNING_POSITION", "LOSING_POSITION"].contains
    (strUpper game_state)

/-- The `normalized_deviation` local of `_analyze_jitter`
(`+1` on the stdev avoids division by zero). -/
def normalized_deviation (profile : LatencyProfile)
    (sample : HeartbeatSample) : ℚ :=
  (sample.round_trip_time - profile.baseline_rtt) / (profile.baseline_std + 1)

/-- The `is_spike` decision of `_analyze_jitter`:
`rtt > LATENCY_SPIKE_THRESHOLD or normalized_deviation >
JITTER_THRESHOLD_STD`, both strict. -/
def is_spike (profile : LatencyProfile) (sample : HeartbeatSample) : Bool :=
  decide (500 < sample.round_trip_time) ||
  decide (5/2 < normalized_deviation profile sample)

/-- `JitterDetector._calculate_jitter_score`: deviation factor capped at
30, spike factor capped at 30, critical-moment factor added only when
`total_critical_moments > 0`, total capped at 100. -/
def calculate_jitter_score (profile : LatencyProfile)
    (ndev : ℚ) : ℚ :=
  let score : ℚ := 0
  let score := score + min 30 (|ndev| * 10)
  let spike_factor : ℚ := (profile.spike_timestamps.length : ℚ) * 5
  let score := score + min 30 spike_factor
  let score :=
    if 0 < profile.total_critical_moments then
      score + ((profile.spikes_during_critical : ℚ) /
        (profile.total_critical_moments : ℚ)) * 40
    else score
  min 100 score

/-- `JitterDetector._classify_connection`. -/
def classify_connection (rtt : ℚ) : ConnectionQuality :=
  if rtt < 50 then ConnectionQuality.EXCELLENT
  else if rtt < 100 then ConnectionQuality.GOOD
  else if rtt < 200 then ConnectionQuality.FAIR
  else if rtt < 500 then ConnectionQuality.POOR
  else ConnectionQuality.CRITICAL

/-- `statistics.mean` on a (nonempty at every call site) list. -/
def listMean (l : List ℚ) : ℚ :=
  l.sum / l.length

/-- `JitterDetector._calculate_trend` (Python slices `[-10:]` and
`[-20:-10]` of the sample deque). -/
def calculate_trend (profile : LatencyProfile) : String :=
  if profile.samples.length < 5 then "INSUFFICIENT_DATA"
  else
    let l := profile.samples.map (fun s => s.round_trip_time)
    let n := l.length
    let recent := l.drop (n - 10)
    let older := (l.drop (n - 20)).take ((n - 10) - (n - 20))
    if older.isEmpty then "ESTABLISHING"
    else
      let recent_avg := listMean recent
      let older_avg := listMean older
      let diff := recent_avg - older_avg
      let threshold := profile.baseline_std * (1/2)
      if |diff| < threshold then "STABLE"
      else if 0 < diff then "INCREASING"
      else "DECREASING"

/-- `JitterDetector._analyze_jitter`: returns the mutated profile and
the analysis. -/
def analyze_jitter (profile : LatencyProfile) (sample : HeartbeatSample) :
    LatencyProfile × JitterAnalysis :=
  let current_time := sample.timestamp
  if profile.baseline_rtt = 0 then
    (profile,
      { user_id := profile.user_id
        timestamp := current_time
        current_jitter := 0
        jitter_score := 0
        latency_trend := "ESTABLISHING_BASELINE"
        is_suspicious := false
        disconnect_type := DisconnectType.GENUINE
        details_rtt := 0
        details_baseline_rtt := 0
        details_deviation := 0
        details_spike_count := 0
        details_connection_quality := profile.connection_quality
        details_critical_fraction := 0
        recommended_action := "" })
  else
    let deviation := sample.round_trip_time - profile.baseline_rtt
    let ndev := normalized_deviation profile sample
    let p1 :=
      if is_spike profile sample then
        let cutoff := current_time - 60
        let sts := (profile.spike_timestamps ++ [current_time]).filter
          (fun ts => cutoff < ts)
        if is_critical_moment sample.game_state then
          { profile with
              spike_timestamps := sts
              spikes_during_critical := profile.spikes_during_critical + 1
              total_critical_moments := profile.total_critical_moments + 1 }
        else { profile with spike_timestamps := sts }
      else if is_critical_moment sample.game_state then
        { profile with
            total_critical_moments := profile.total_critical_moments + 1 }
      else profile
    let jitter_score := calculate_jitter_score p1 ndev
    let p2 := { p1 with
        connection_quality := classify_connection sample.round_trip_time }
    let latency_trend := calculate_trend p2
    let susp0 : Bool := decide (3 ≤ p2.spike_timestamps.length)
    let flag0 : String :=
      if susp0 then "Multiple latency spikes detected" else ""
    let boosted : Bool :=
      decide (5 ≤ p2.total_critical_moments) &&
      decide ((3 : ℚ)/5 < (p2.spikes_during_critical : ℚ) /
        (p2.total_critical_moments : ℚ))
    let is_susp := susp0 || boosted
    let flag_reason :=
      if boosted then "Suspicious spike timing pattern" else flag0
    let jitter_score2 :=
      if boosted then min 100 (jitter_score + 30) else jitter_score
    let p3 :=
      if is_susp && !p2.is_flagged then
        { p2 with is_flagged := true, flag_reason := flag_reason }
      else p2
    (p3,
      { user_id := profile.user_id
        timestamp := current_time
        current_jitter := ndev
        jitter_score := jitter_score2
        latency_trend := latency_trend
        is_suspicious := is_susp
        disconnect_type := DisconnectType.GENUINE
        details_rtt := sample.round_trip_time
        details_baseline_rtt := profile.baseline_rtt
        details_deviation := deviation
        details_spike_count := p3.spike_timestamps.length
        details_connection_quality := p3.connection_quality
        details_critical_fraction := (p3.spikes_during_critical : ℚ) /
          (max 1 p3.total_critical_moments : ℕ)
        recommended_action := if is_susp then "MONITOR" else "" })

/-! ## LK-Shield — `security.py`, `LKShield.verify_player` -/

/-- `ShieldVerdict` enum. -/
inductive ShieldVerdict
  | APPROVED
  | DENIED_LOW_TRUST
  | DENIED_COLLUSION
  | DENIED_RATE_LIMIT
  | DENIED_QUARANTINE
  | DENIED_FROZEN
  | DENIED_KYC
  | REVIEW_REQUIRED
deriving DecidableEq

/-- `PlayerSecurityProfile` dataclass. -/
structure PlayerSecurityProfile where
  user_id : String
  trust_score : ℤ
  trust_level : String
  kyc_status : String
  is_frozen : Bool
  device_fingerprint : Option String
  current_ip : String
  lkoins_balance : ℚ
  recent_matches : ℕ
  recent_wins : ℕ
  recent_disconnects : ℕ
  last_match_timestamp : Option ℕ
  in_quarantine : Bool
  quarantine_until : Option ℕ
deriving DecidableEq

/-- `ShieldCheckResult` dataclass. -/
structure ShieldCheckResult where
  verdict : ShieldVerdict
  player_id : String
  can_proceed : Bool
  reason : String
  risk_score : ℕ
  flags : List String
  recommended_action : Option String
  retry_after : Option ℤ
deriving DecidableEq

/-- `LKShield.verify_player`.  The `SecurityMemoryStore` interactions
are passed in as evaluated inputs: `in_quarantine` and
`quarantine_retry_after` from `store.is_in_quarantine`, `request_count`
from `store.get_match_request_count` after `record_match_request`, and
`failed_count` from `store.get_failed_match_count`.  Thresholds from
`SecurityConfig`: `MIN_TRUST_SCORE_FOR_MATCH = 30`,
`MIN_TRUST_SCORE_FOR_HIGH_STAKES = 70`, `HIGH_STAKE_THRESHOLD = 100`,
`MAX_MATCH_REQUESTS_PER_MINUTE = 10`, `MAX_FAILED_MATCHES_PER_HOUR = 5`,
`SUSPICIOUS_WIN_RATE = 0.85`, `MIN_MATCHES_FOR_WIN_RATE = 20`.  The
win-rate float division becomes exact division on `ℚ`. -/
def verify_player (profile : PlayerSecurityProfile) (bet_amount : ℚ)
    (in_quarantine : Bool) (quarantine_retry_after : ℤ)
    (request_count failed_count : ℕ) : ShieldCheckResult :=
  if profile.is_frozen then
    { verdict := ShieldVerdict.DENIED_FROZEN
      player_id := profile.user_id
      can_proceed := false
      reason := "Cuenta congelada por seguridad"
      risk_score := 100
      flags := ["ACCOUNT_FROZEN"]
      recommended_action := none
      retry_after := none }
  else if in_quarantine then
    { verdict := ShieldVerdict.DENIED_QUARANTINE
      player_id := profile.user_id
      can_proceed := false
      reason := "Cuenta en cuarentena temporal"
      risk_score := 0
      flags := ["IN_QUARANTINE"]
      recommended_action := none
      retry_after := some quarantine_retry_after }
  else if profile.trust_score < 30 then
    { verdict := ShieldVerdict.DENIED_LOW_TRUST
      player_id := profile.user_id
      can_proceed := false
      reason := "Trust Score muy bajo"
      risk_score := 0 + 40
      flags := ["LOW_TRUST_SCORE"]
      recommended_action := some "Mejorar comportamiento para recuperar confianza"
      retry_after := none }
  else
    -- the source accumulates `risk_score` and `flags` as two mutable
    -- locals; each accumulation step is mirrored by a pair of lets
    -- guarded by the same condition
    let risk1 : ℕ :=
      if profile.trust_level = "RED" then 30
      else if profile.trust_level = "YELLOW" then 15
      else 0
    let flags1 : List String :=
      if profile.trust_level = "RED" then ["RED_FLAG_ACCOUNT"]
      else if profile.trust_level = "YELLOW" then ["YELLOW_FLAG_ACCOUNT"]
      else []
    if 100 ≤ bet_amount ∧ profile.kyc_status ≠ "VERIFIED" then
      { verdict := ShieldVerdict.DENIED_KYC
        player_id := profile.user_id
        can_proceed := false
        reason := "KYC requerido para apuestas altas"
        risk_score := 50
        flags := ["HIGH_STAKE_NO_KYC"]
        recommended_action := some "Completar verificación de identidad"
        retry_after := none }
    else
      let risk2 : ℕ :=
        if 100 ≤ bet_amount ∧ profile.trust_score < 70 then risk1 + 20
        else risk1
      let flags2 : List String :=
        if 100 ≤ bet_amount ∧ profile.trust_score < 70 then
          flags1 ++ ["LOW_TRUST_HIGH_STAKE"]
        else flags1
      if 10 < request_count then
        { verdict := ShieldVerdict.DENIED_RATE_LIMIT
          player_id := profile.user_id
          can_proceed := false
          reason := "Demasiadas solicitudes de partida"
          risk_score := 0
          flags := ["RATE_LIMITED"]
          recommended_action := none
          retry_after := some 60 }
      else
        let risk3 : ℕ := if 5 ≤ failed_count then risk2 + 25 else risk2
        let flags3 : List String :=
          if 5 ≤ failed_count then flags2 ++ ["MANY_FAILED_MATCHES"]
          else flags2
        let risk4 : ℕ :=
          if 20 ≤ profile.recent_matches ∧
              (85 : ℚ)/100 ≤ (profile.recent_wins : ℚ) /
                (profile.recent_matches : ℚ) then risk3 + 20
          else risk3
        let flags4 : List String :=
          if 20 ≤ profile.recent_matches ∧
              (85 : ℚ)/100 ≤ (profile.recent_wins : ℚ) /
                (profile.recent_matches : ℚ) then
            flags3 ++ ["SUSPICIOUS_WIN_RATE"]
          else flags3
        let risk5 : ℕ :=
          if 3 ≤ profile.recent_disconnects then risk4 + 15 else risk4
        let flags5 : List String :=
          if 3 ≤ profile.recent_disconnects then
            flags4 ++ ["FREQUENT_DISCONNECTS"]
          else flags4
        if 70 ≤ risk5 then
          { verdict := ShieldVerdict.REVIEW_REQUIRED
            player_id := profile.user_id
            can_proceed := false
            reason := "Perfil requiere revisión manual"
            risk_score := risk5
            flags := flags5
            recommended_action := some "Esperar aprobación de administrador"
            retry_after := none }
        else
          { verdict := ShieldVerdict.APPROVED
            player_id := profile.user_id
            can_proceed := true
            reason := "Verificación exitosa"
            risk_score := risk5
            flags := flags5
            recommended_action := none
            retry_after := none }

/-! ## Concrete instances used by witnesses and counterexamples -/

/-- A concrete balance-hash function for closed evaluations (the hash
never influences control flow). -/
def trivialBalanceHash : String → ℚ → String :=
  fun _ _ => ""

/-- The transition relation of the claim's FSM table, written out
pair by pair. -/
def specAllowed : MatchState → MatchState → Bool
  | MatchState.MATCHMAKING, MatchState.LOCKED => true
  | MatchState.MATCHMAKING, MatchState.CANCELLED => true
  | MatchState.LOCKED, MatchState.IN_PROGRESS => true
  | MatchState.LOCKED, MatchState.CANCELLED => true
  | MatchState.IN_PROGRESS, MatchState.VALIDATION => true
  | MatchState.IN_PROGRESS, MatchState.DISPUTED => true
  | MatchState.VALIDATION, MatchState.SETTLEMENT => true
  | MatchState.VALIDATION, MatchState.DISPUTED => true
  | MatchState.SETTLEMENT, MatchState.COMPLETED => true
  | MatchState.SETTLEMENT, MatchState.DISPUTED => true
  | MatchState.DISPUTED, MatchState.COMPLETED => true
  | MatchState.DISPUTED, MatchState.CANCELLED => true
  | _, _ => false

/-- A two-player room in `VALIDATION` about to settle a 25-token ludo
match. -/
def c2Room : MatchRoom :=
  { match_id := "m1", state := MatchState.VALIDATION, bet_amount := 25,
    players := [("A", 100), ("B", 100)], locked_at := none,
    started_at := none, ledger_entry_id := none }

/-- 64 hex zeros, standing in for a concrete digest. -/
def zeros64 : String :=
  "0000000000000000000000000000000000000000000000000000000000000000"

/-- A concrete constant digest function for the dice witness. -/
def H0 : String → String :=
  fun _ => zeros64

/-- A freshly constructed dice state: raw seed `"s"`, published hash
`"h"`, no client seeds, nonce 0. -/
def dice0 : ProvablyFairDice :=
  { server_seed := "s", server_seed_hash := "h", client_seeds := [],
    nonce := 0 }

/-- The roll `dice0` produces under `H0`: `N = 0`, value 1. -/
def roll0 : DiceRoll :=
  { value := 1, server_seed := "h", client_seed := "default", nonce := 1,
    timestamp := 0, hash_proof := "0000000000000000" }

/-- A digest whose first 8 hex digits read 5, so the dice value is
`5 % 6 + 1 = 6`. -/
def H6 : String → String :=
  fun _ => "00000005"

/-- Four fresh pieces in `HOME`, as `LudoPlayer.__post_init__` builds
them. -/
def homePieces (c : PlayerColor) : List LudoPiece :=
  [ { piece_id := 0, owner := c, state := PieceState.HOME, position := -1,
      safe_zone_pos := -1 },
    { piece_id := 1, owner := c, state := PieceState.HOME, position := -1,
      safe_zone_pos := -1 },
    { piece_id := 2, owner := c, state := PieceState.HOME, position := -1,
      safe_zone_pos := -1 },
    { piece_id := 3, owner := c, state := PieceState.HOME, position := -1,
      safe_zone_pos := -1 } ]

/-- Red player `"A"` with all pieces home. -/
def playerA : LudoPlayer :=
  { user_id := "A", color := PlayerColor.RED,
    pieces := homePieces PlayerColor.RED, pieces_finished := 0,
    captures_made := 0, sixes_rolled := 0, is_connected := true }

/-- Blue player `"B"` with all pieces home. -/
def playerB : LudoPlayer :=
  { user_id := "B", color := PlayerColor.BLUE,
    pieces := homePieces PlayerColor.BLUE, pieces_finished := 0,
    captures_made := 0, sixes_rolled := 0, is_connected := true }

/-- A two-player game in `ROLLING` where player `"A"` has already
rolled two consecutive sixes. -/
def eng0 : LudoEngine :=
  { match_id := "m1", state := LudoGameState.ROLLING,
    players := [playerA, playerB], current_player_index := 0,
    dice := dice0, current_roll := none, consecutive_sixes := 2,
    can_roll_again := true, moves_history := [], move_counter := 0,
    winner := none, rankings := [], started_at := 0, turn_started_at := 0 }

/-- The third six `"A"` rolls under `H6`. -/
def roll6 : DiceRoll :=
  { value := 6, server_seed := "h", client_seed := "default", nonce := 1,
    timestamp := 0, hash_proof := "00000005" }

/-- A baseline-established profile with `baseline_rtt 499`,
`baseline_std 100`. -/
def profile500 : LatencyProfile :=
  { user_id := "u", baseline_rtt := 499, baseline_std := 100,
    current_rtt := 0, samples := [], spike_timestamps := [],
    connection_quality := ConnectionQuality.GOOD, is_flagged := false,
    flag_reason := "", missed_heartbeats := 0, last_heartbeat := 0,
    spikes_during_critical := 0, total_critical_moments := 0 }

/-- A heartbeat with RTT exactly 500 ms. -/
def sample500 : HeartbeatSample :=
  { timestamp := 1000, client_timestamp := 0, round_trip_time := 500,
    sequence_number := 1, game_state := "" }

/-- A baseline-established profile with `baseline_rtt 100`,
`baseline_std 1`. -/
def profileDev : LatencyProfile :=
  { profile500 with baseline_rtt := 100, baseline_std := 1 }

/-- A heartbeat with RTT 105 ms, whose normalised deviation against
`profileDev` is exactly 2.5. -/
def sampleDev : HeartbeatSample :=
  { sample500 with round_trip_time := 105 }

/-- The claim's score formula, written out as stated:
`clamp(0, |normalised_dev|·10 + spikes·5 +
(crit_spikes / max(1, crit_total))·40, 100)`. -/
def spec_jitter_score (p : LatencyProfile) (ndev : ℚ) : ℚ :=
  min 100 (max 0 (|ndev| * 10 + (p.spike_timestamps.length : ℚ) * 5 +
    ((p.spikes_during_critical : ℚ) /
      ((max 1 p.total_critical_moments : ℕ) : ℚ)) * 40))

/-- A baseline-established profile (`baseline 100`, `std 0`) with no
spike history. -/
def profileC7 : LatencyProfile :=
  { profile500 with baseline_rtt := 100, baseline_std := 0 }

/-- A heartbeat at 104 ms: normalised deviation 4 against
`profileC7`. -/
def sampleC7 : HeartbeatSample :=
  { sample500 with round_trip_time := 104 }

/-- The profile state after `_analyze_jitter` on `profileC7` /
`sampleC7`: one spike recorded, connection reclassified. -/
def profileC7post : LatencyProfile :=
  { profileC7 with spike_timestamps := [1000],
                   connection_quality := ConnectionQuality.FAIR }

/-- The analysis `_analyze_jitter` returns on `profileC7` /
`sampleC7`. -/
def analysisC7 : JitterAnalysis :=
  { user_id := "u", timestamp := 1000, current_jitter := 4,
    jitter_score := 35, latency_trend := "INSUFFICIENT_DATA",
    is_suspicious := false, disconnect_type := DisconnectType.GENUINE,
    details_rtt := 104, details_baseline_rtt := 100,
    details_deviation := 4, details_spike_count := 1,
    details_connection_quality := ConnectionQuality.FAIR,
    details_critical_fraction := 0, recommended_action := "" }

/-- A baseline-established profile with one spike in the window and no
critical moments. -/
def profileC7w : LatencyProfile :=
  { profileC7 with spike_timestamps := [1000] }

/-- A clean profile with trust score 29. -/
def p29 : PlayerSecurityProfile :=
  { user_id := "u29", trust_score := 29, trust_level := "GREEN",
    kyc_status := "VERIFIED", is_frozen := false,
    device_fingerprint := none, current_ip := "ip", lkoins_balance := 0,
    recent_matches := 0, recent_wins := 0, recent_disconnects := 0,
    last_match_timestamp := none, in_quarantine := false,
    quarantine_until := none }

/-- The same profile with trust score exactly 30. -/
def p30 : PlayerSecurityProfile :=
  { p29 with user_id := "u30", trust_score := 30 }

/-! # Theorems

Helper lemmas first, then one theorem per claim (with witnesses for
theorems carrying hypotheses and counterexamples for corrected
claims). -/

/-- Evaluation of `get_rake_tier` on the first tier's range. -/
theorem get_rake_tier_semilla {bet : ℚ} (h1 : 1 ≤ bet) (h2 : bet ≤ 10) :
    get_rake_tier bet =
      { level := RakeLevel.SEMILLA, min_bet := 1, max_bet := 10, rate := 8/100 } := by
  simp [get_rake_tier, RAKE_TIERS, List.find?, RakeConfig.applies_to, h1, h2]

/-- Evaluation of `get_rake_tier` on the second tier's range. -/
theorem get_rake_tier_competidor {bet : ℚ} (h1 : 11 ≤ bet) (h2 : bet ≤ 50) :
    get_rake_tier bet =
      { level := RakeLevel.COMPETIDOR, min_bet := 11, max_bet := 50, rate := 6/100 } := by
  have hn : ¬ bet ≤ 10 := by linarith
  simp [get_rake_tier, RAKE_TIERS, List.find?, RakeConfig.applies_to, h1, h2, hn]

/-- Evaluation of `get_rake_tier` on `[51, ∞)`: inside the third tier's
range check up to `999999`, by the `RAKE_TIERS[-1]` fallback above it. -/
theorem get_rake_tier_pro {bet : ℚ} (h1 : 51 ≤ bet) :
    get_rake_tier bet = proTier := by
  have hn1 : ¬ bet ≤ 10 := by linarith
  have hn2 : ¬ bet ≤ 50 := by linarith
  by_cases h2 : bet ≤ 999999
  · simp [get_rake_tier, RAKE_TIERS, List.find?, RakeConfig.applies_to, proTier, h1, h2,
      hn1, hn2]
  · simp [get_rake_tier, RAKE_TIERS, List.find?, RakeConfig.applies_to, proTier, h1, h2,
      hn1, hn2]

/-- Evaluation of `get_rake_tier` outside every tier's range. -/
theorem get_rake_tier_default {bet : ℚ}
    (h : bet < 1 ∨ (10 < bet ∧ bet < 11) ∨ (50 < bet ∧ bet < 51)) :
    get_rake_tier bet = proTier := by
  have hn1 : ¬ (1 ≤ bet ∧ bet ≤ 10) := by
    rcases h with h | ⟨h, h'⟩ | ⟨h, h'⟩ <;> push_neg <;> intro <;> linarith
  have hn2 : ¬ (11 ≤ bet ∧ bet ≤ 50) := by
    rcases h with h | ⟨h, h'⟩ | ⟨h, h'⟩ <;> push_neg <;> intro <;> linarith
  have hn3 : ¬ (51 ≤ bet ∧ bet ≤ 999999) := by
    rcases h with h | ⟨h, h'⟩ | ⟨h, h'⟩ <;> push_neg <;> intro <;> linarith
  simp [get_rake_tier, RAKE_TIERS, List.find?, RakeConfig.applies_to, proTier, hn1, hn2,
    hn3]

/-- The settlement amounts of `calculate_fee` reassemble the pot:
`winner_prize + total_fee = bet × players`. -/
theorem calculate_fee_pot_split (bet : ℚ) (n : ℕ) :
    (calculate_fee bet n).winner_prize + (calculate_fee bet n).total_fee =
      bet * n := by
  simp only [calculate_fee]
  ring

/-- `create_match_settlement` raises its own balance-equation
`ValueError` on every nonzero bet: it sets `debit = bet` while
`credit + rake = 2·bet`. -/
theorem create_match_settlement_raises (bh : String → ℚ → String) (now : ℕ)
    (led : TreasuryLedger) (match_id winner_id loser_id : String)
    (bet wb lb : ℚ) (hbet : bet ≠ 0) :
    create_match_settlement bh now led match_id winner_id loser_id bet wb lb =
      Except.error ("Balance equation failed for entry " ++
        ("LED-" ++ match_id.take 8 ++ "-" ++ toString now)) := by
  have key := calculate_fee_pot_split bet 2
  have hne : bet ≠ (calculate_fee bet 2).winner_prize + (calculate_fee bet 2).total_fee := by
    rw [key]
    push_cast
    intro hc
    apply hbet
    linarith
  simp [create_match_settlement, LedgerEntry.validate_balance_equation, hne]

/-- C1: the claim says `TreasuryLedger.create_match_settlement` returns
a pending `LedgerEntry` whose amounts satisfy
`debit = credit + rake` and `debit = bet_per_player × players` without
raising, for every `bet_amount ≥ 1`.  The code does the opposite: it
sets `debit_amount = bet_amount` while `credit + rake = 2 × bet_amount`,
so its own `validate_balance_equation` fails and it raises `ValueError`
on every such bet. -/
theorem c1_create_match_settlement_always_raises (bh : String → ℚ → String)
    (now : ℕ) (led : TreasuryLedger) (match_id winner_id loser_id : String)
    (bet wb lb : ℚ) (hbet : 1 ≤ bet) :
    ∃ msg, create_match_settlement bh now led match_id winner_id loser_id
      bet wb lb = Except.error msg := by
  refine ⟨_, create_match_settlement_raises bh now led match_id winner_id
    loser_id bet wb lb ?_⟩
  intro hc
  rw [hc] at hbet
  norm_num at hbet

/-- C1 witness: the settlement of the spec's happy-path scenario
(bet 25, two distinct players) raises. -/
theorem c1_witness :
    ∃ msg, create_match_settlement trivialBalanceHash 0 TreasuryLedger.init
      "m1" "W" "L" 25 100 100 = Except.error msg :=
  c1_create_match_settlement_always_raises trivialBalanceHash 0
    TreasuryLedger.init "m1" "W" "L" 25 100 100 (by norm_num)

/-- C4: the commission tiers are 8 % on `[1,10]`, 6 % on `[11,50]` and
5 % on `[51,∞)`, and `calculate_fee` returns
`fee_per_player = round2(bet × rate)`, `total_pot = bet × players`,
`total_fee = fee_per_player × players` and
`winner_prize = total_pot − total_fee`; concretely for bet 25 and two
players the fee per player is 1.50, the total fee 3.00 and the winner
prize 47.00. -/
theorem c4_rake_tiers_and_fee (bet : ℚ) (n : ℕ) :
    (1 ≤ bet ∧ bet ≤ 10 → (calculate_fee bet n).rake_rate = 8/100) ∧
    (11 ≤ bet ∧ bet ≤ 50 → (calculate_fee bet n).rake_rate = 6/100) ∧
    (51 ≤ bet → (calculate_fee bet n).rake_rate = 5/100) ∧
    (calculate_fee bet n).fee_per_player =
      quantize2 (bet * (get_rake_tier bet).rate) ∧
    (calculate_fee bet n).total_pot = bet * n ∧
    (calculate_fee bet n).total_fee = (calculate_fee bet n).fee_per_player * n ∧
    (calculate_fee bet n).winner_prize =
      (calculate_fee bet n).total_pot - (calculate_fee bet n).total_fee ∧
    (calculate_fee 25 2).fee_per_player = 3/2 ∧
    (calculate_fee 25 2).total_fee = 3 ∧
    (calculate_fee 25 2).winner_prize = 47 := by
  have h25 : get_rake_tier 25 =
      { level := RakeLevel.COMPETIDOR, min_bet := 11, max_bet := 50, rate := 6/100 } :=
    get_rake_tier_competidor (by norm_num) (by norm_num)
  have hfee25 : (calculate_fee 25 2).fee_per_player = 3/2 := by
    simp only [calculate_fee, h25]
    norm_num [quantize2, roundHalfEven]
  refine ⟨?_, ?_, ?_, rfl, rfl, rfl, rfl, hfee25, ?_, ?_⟩
  · rintro ⟨h1, h2⟩
    simp [calculate_fee, get_rake_tier_semilla h1 h2]
  · rintro ⟨h1, h2⟩
    simp [calculate_fee, get_rake_tier_competidor h1 h2]
  · intro h1
    simp [calculate_fee, get_rake_tier_pro h1, proTier]
  · show (calculate_fee 25 2).fee_per_player * ((2 : ℕ) : ℚ) = 3
    rw [hfee25]
    norm_num
  · show (25 : ℚ) * ((2 : ℕ) : ℚ) - (calculate_fee 25 2).fee_per_player * ((2 : ℕ) : ℚ) = 47
    rw [hfee25]
    norm_num

/-- C4 witness: bet 25 falls in the 6 % tier and yields prize 47. -/
theorem c4_witness :
    (11 ≤ (25 : ℚ) ∧ (25 : ℚ) ≤ 50) ∧
    (calculate_fee 25 2).rake_rate = 6/100 ∧
    (calculate_fee 25 2).winner_prize = 47 :=
  ⟨⟨by norm_num, by norm_num⟩,
   (c4_rake_tiers_and_fee 25 2).2.1 ⟨by norm_num, by norm_num⟩,
   (c4_rake_tiers_and_fee 25 2).2.2.2.2.2.2.2.2.2⟩

/-- C10: a `bet_amount` outside every declared tier range — below 1,
strictly between 10 and 11, or strictly between 50 and 51 — falls
through every tier's `applies_to` and gets the default `PRO` tier, so
`calculate_fee` charges 5 %. -/
theorem c10_out_of_range_bets_get_pro_tier (bet : ℚ)
    (h : bet < 1 ∨ (10 < bet ∧ bet < 11) ∨ (50 < bet ∧ bet < 51)) :
    get_rake_tier bet = proTier ∧
    (calculate_fee bet 2).rake_rate = 5/100 ∧
    (calculate_fee bet 2).rake_level = RakeLevel.PRO := by
  have hd := get_rake_tier_default h
  exact ⟨hd, by simp [calculate_fee, hd, proTier], by simp [calculate_fee, hd, proTier]⟩

/-- C10 witness: `Decimal("10.5")` gets the `PRO` tier and the 5 %
rate. -/
theorem c10_witness :
    ((10 : ℚ) < 21/2 ∧ (21/2 : ℚ) < 11) ∧
    get_rake_tier (21/2) = proTier ∧
    (calculate_fee (21/2) 2).rake_rate = 5/100 :=
  ⟨⟨by norm_num, by norm_num⟩,
   (c10_out_of_range_bets_get_pro_tier (21/2)
     (Or.inr (Or.inl ⟨by norm_num, by norm_num⟩))).1,
   (c10_out_of_range_bets_get_pro_tier (21/2)
     (Or.inr (Or.inl ⟨by norm_num, by norm_num⟩))).2.1⟩

/-- C5: `MatchManager.transition_state` succeeds (returns `True` and
installs the new state) exactly on the FSM table's transitions —
`matchmaking→{locked,cancelled}`, `locked→{in_progress,cancelled}`,
`in_progress→{validation,disputed}`, `validation→{settlement,disputed}`,
`settlement→{completed,disputed}`, `disputed→{completed,cancelled}` —
and on every other request (including any transition out of the
terminal states `completed` and `cancelled`) returns `False` leaving
the room untouched. -/
theorem c5_transition_state_fsm (now : ℕ) (room : MatchRoom)
    (new_state : MatchState) :
    ((transition_state now room new_state).2 = specAllowed room.state new_state) ∧
    (specAllowed room.state new_state = true →
      (transition_state now room new_state).1.state = new_state) ∧
    (specAllowed room.state new_state = false →
      transition_state now room new_state = (room, false)) := by
  obtain ⟨mid, st, bet, pls, la, sa, lid⟩ := room
  cases st <;> cases new_state <;>
    simp [transition_state, valid_transitions, specAllowed]

/-- C5 witness: a concrete room in `MATCHMAKING` moves to `LOCKED`
(allowed), and a `COMPLETED` room refuses a move to `CANCELLED`
(terminal). -/
theorem c5_witness :
    specAllowed MatchState.MATCHMAKING MatchState.LOCKED = true ∧
    (transition_state 7
      { match_id := "m1", state := MatchState.MATCHMAKING, bet_amount := 25,
        players := [], locked_at := none, started_at := none,
        ledger_entry_id := none } MatchState.LOCKED).1.state =
      MatchState.LOCKED ∧
    specAllowed MatchState.COMPLETED MatchState.CANCELLED = false ∧
    transition_state 7
      { match_id := "m1", state := MatchState.COMPLETED, bet_amount := 25,
        players := [], locked_at := none, started_at := none,
        ledger_entry_id := none } MatchState.CANCELLED =
      ({ match_id := "m1", state := MatchState.COMPLETED, bet_amount := 25,
         players := [], locked_at := none, started_at := none,
         ledger_entry_id := none }, false) :=
  ⟨rfl,
   (c5_transition_state_fsm 7
     { match_id := "m1", state := MatchState.MATCHMAKING, bet_amount := 25,
       players := [], locked_at := none, started_at := none,
       ledger_entry_id := none } MatchState.LOCKED).2.1 rfl,
   rfl,
   (c5_transition_state_fsm 7
     { match_id := "m1", state := MatchState.COMPLETED, bet_amount := 25,
       players := [], locked_at := none, started_at := none,
       ledger_entry_id := none } MatchState.CANCELLED).2.2 rfl⟩

/-- C2 counterexample: settlement fails on this room (creating the
settlement entry raises, so the error branch runs — the returned flag
`true` is the emitted `SETTLEMENT_ERROR`), yet the game-over handler
still moves the room to `COMPLETED`, not leaving it in `SETTLEMENT`. -/
theorem c2_counterexample :
    ∃ room' led',
      handle_ludo_game_over trivialBalanceHash 0 c2Room TreasuryLedger.init
        (some "A") = Except.ok (room', led', true) ∧
      room'.state = MatchState.COMPLETED := by
  have hcr := create_match_settlement_raises trivialBalanceHash 0
    TreasuryLedger.init "m1" "A" "B" 25 100 100 (by norm_num)
  refine ⟨{ c2Room with state := MatchState.COMPLETED }, TreasuryLedger.init,
    ?_, rfl⟩
  simp [handle_ludo_game_over, c2Room, transition_state, valid_transitions,
    dictGet, hcr]

/-- C2 amended: when settlement fails in `_handle_ludo_game_over` (for
a two-player room entering from `VALIDATION` the settlement-entry
creation always raises, since every bet is ≥ 1), the handler catches
the error, emits `SETTLEMENT_ERROR` (the `true` flag), leaves the
ledger untouched — and then still transitions the room
`SETTLEMENT → COMPLETED` unconditionally, so the room ends in
`COMPLETED` rather than remaining in `SETTLEMENT`. -/
theorem c2_amended_settlement_failure_still_completes
    (bh : String → ℚ → String) (now : ℕ) (room : MatchRoom)
    (led : TreasuryLedger) (p0 p1 : String) (b0 b1 : ℚ)
    (hstate : room.state = MatchState.VALIDATION)
    (hplayers : room.players = [(p0, b0), (p1, b1)])
    (hbet : 1 ≤ room.bet_amount) :
    ∃ room', handle_ludo_game_over bh now room led (some p0) =
      Except.ok (room', led, true) ∧
      room'.state = MatchState.COMPLETED := by
  have hbet0 : room.bet_amount ≠ 0 := by
    intro hc
    rw [hc] at hbet
    norm_num at hbet
  have hcr := fun w l wb lb => create_match_settlement_raises bh now led
    room.match_id w l room.bet_amount wb lb hbet0
  by_cases hpp : p1 = p0
  · refine ⟨{ room with state := MatchState.COMPLETED }, ?_, rfl⟩
    simp [handle_ludo_game_over, transition_state, valid_transitions, hstate,
      hplayers, hpp, dictGet, hcr]
  · have hpp' : p0 ≠ p1 := fun h => hpp h.symm
    refine ⟨{ room with state := MatchState.COMPLETED }, ?_, rfl⟩
    simp [handle_ludo_game_over, transition_state, valid_transitions, hstate,
      hplayers, hpp, hpp', dictGet, hcr]

/-- C2 witness: the concrete failing settlement of `c2Room` ends in
`COMPLETED` with the error event emitted. -/
theorem c2_witness :
    ∃ room', handle_ludo_game_over trivialBalanceHash 0 c2Room
      TreasuryLedger.init (some "A") =
        Except.ok (room', TreasuryLedger.init, true) ∧
      room'.state = MatchState.COMPLETED :=
  c2_amended_settlement_failure_still_completes trivialBalanceHash 0 c2Room
    TreasuryLedger.init "A" "B" 100 100 rfl rfl (by norm_num [c2Room])

/-- C3: every successful `ProvablyFairDice.roll` returns a value in
`[1..6]` equal to `N % 6 + 1` for `N` the unsigned integer read from
the first 8 hex digits of the digest of
`server_seed ++ ":" ++ client_seed ++ ":" ++ nonce`; the shared nonce
advances by exactly 1; and `verify_roll` on the returned `DiceRoll`
with the revealed raw `server_seed` round-trips to `True`.  (`H` is
the SHA-256 hexdigest the source obtains from `hashlib`.) -/
theorem c3_provably_fair_roll_roundtrip (H : String → String) (now : ℕ)
    (d d' : ProvablyFairDice) (player_id : String) (r : DiceRoll)
    (h : ProvablyFairDice.roll H now d player_id = some (d', r)) :
    (1 ≤ r.value ∧ r.value ≤ 6) ∧
    d'.nonce = d.nonce + 1 ∧
    r.nonce = d.nonce + 1 ∧
    (∃ n, parseHexNat?
        ((H (combinedSeed d.server_seed r.client_seed r.nonce)).take 8) =
          some n ∧
      r.value = n % 6 + 1) ∧
    verify_roll H r d.server_seed = some true := by
  unfold ProvablyFairDice.roll at h
  dsimp only at h
  cases hp : parseHexNat?
      ((H (combinedSeed d.server_seed
        ((dictGet player_id d.client_seeds).getD "default")
        (d.nonce + 1))).take 8) with
  | none =>
      rw [hp] at h
      exact absurd h (by simp)
  | some n =>
      rw [hp] at h
      simp only [Option.some.injEq, Prod.mk.injEq] at h
      obtain ⟨hd', hr⟩ := h
      subst hd'
      subst hr
      refine ⟨⟨?_, ?_⟩, rfl, rfl, ⟨n, hp, rfl⟩, ?_⟩
      · show 1 ≤ n % 6 + 1
        omega
      · show n % 6 + 1 ≤ 6
        omega
      · unfold verify_roll
        dsimp only
        rw [hp]
        simp

/-- C3 witness: the concrete roll of `dice0` under `H0` satisfies the
range, nonce and verification properties. -/
theorem c3_witness :
    ProvablyFairDice.roll H0 0 dice0 "p" =
      some ({ dice0 with nonce := 1 }, roll0) ∧
    (1 ≤ roll0.value ∧ roll0.value ≤ 6) ∧
    verify_roll H0 roll0 "s" = some true := by
  have h : ProvablyFairDice.roll H0 0 dice0 "p" =
      some ({ dice0 with nonce := 1 }, roll0) := by decide
  exact ⟨h, (c3_provably_fair_roll_roundtrip H0 0 dice0 _ "p" roll0 h).1,
    (c3_provably_fair_roll_roundtrip H0 0 dice0 _ "p" roll0 h).2.2.2.2⟩

/-- C8: in state `rolling`, when the current player's `roll_dice`
yields a 6 that is the third consecutive 6 of their turn
(`consecutive_sixes` was 2), the turn is forfeited: `roll_dice`
returns the `three_sixes` penalty, the turn passes to the next player,
no piece (players list) changes, nothing is appended to
`moves_history`, the consecutive-six counter resets, and the game is
back in `rolling` for the next player. -/
theorem c8_three_consecutive_sixes_forfeit (H : String → String) (now : ℕ)
    (e : LudoEngine) (user_id : String) (client_seed : Option String)
    (player : LudoPlayer) (d2 : ProvablyFairDice) (roll : DiceRoll)
    (hstate : e.state = LudoGameState.ROLLING)
    (hplayer : e.players[e.current_player_index]? = some player)
    (huser : user_id = player.user_id)
    (hroll : ProvablyFairDice.roll H now
      (apply_client_seed e.dice user_id client_seed) user_id =
        some (d2, roll))
    (hsix : roll.value = 6)
    (hcs : e.consecutive_sixes = 2) :
    ∃ e' next_id,
      e.roll_dice H now user_id client_seed =
        some (e', RollResult.threeSixes roll next_id) ∧
      e'.players = e.players ∧
      e'.moves_history = e.moves_history ∧
      e'.consecutive_sixes = 0 ∧
      e'.can_roll_again = false ∧
      e'.current_roll = none ∧
      e'.state = LudoGameState.ROLLING ∧
      e'.current_player_index =
        (e.current_player_index + 1) % e.players.length := by
  have hlen : e.current_player_index < e.players.length := by
    by_contra hge
    rw [List.getElem?_eq_none (Nat.le_of_not_lt hge)] at hplayer
    exact Option.noConfusion hplayer
  have hpos : 0 < e.players.length := Nat.lt_of_le_of_lt (Nat.zero_le _) hlen
  have hlt : (e.current_player_index + 1) % e.players.length <
      e.players.length := Nat.mod_lt _ hpos
  obtain ⟨p2, hp2⟩ : ∃ p2,
      e.players[(e.current_player_index + 1) % e.players.length]? = some p2 := by
    rw [List.getElem?_eq_getElem hlt]
    exact ⟨_, rfl⟩
  refine ⟨next_turn now
            { e with dice := d2, current_roll := some roll,
                     consecutive_sixes := e.consecutive_sixes + 1 },
          p2.user_id, ?_, rfl, rfl, rfl, rfl, rfl, rfl, rfl⟩
  unfold LudoEngine.roll_dice
  dsimp only
  rw [hstate, if_neg (by simp : ¬ (LudoGameState.ROLLING ≠ LudoGameState.ROLLING))]
  rw [hplayer]
  dsimp only
  rw [if_neg (by simp [huser] : ¬ user_id ≠ player.user_id)]
  rw [hroll]
  dsimp only
  rw [hsix, if_pos rfl, hcs]
  rw [if_pos (by norm_num : 3 ≤ 2 + 1)]
  dsimp only [next_turn]
  rw [hp2]

/-- C8 witness: the concrete third consecutive six forfeits `"A"`'s
turn with no board change. -/
theorem c8_witness :
    ∃ e' next_id,
      eng0.roll_dice H6 0 "A" none =
        some (e', RollResult.threeSixes roll6 next_id) ∧
      e'.players = eng0.players ∧
      e'.moves_history = eng0.moves_history ∧
      e'.consecutive_sixes = 0 ∧
      e'.can_roll_again = false ∧
      e'.current_roll = none ∧
      e'.state = LudoGameState.ROLLING ∧
      e'.current_player_index =
        (eng0.current_player_index + 1) % eng0.players.length :=
  c8_three_consecutive_sixes_forfeit H6 0 eng0 "A" none playerA
    { dice0 with nonce := 1 } roll6 rfl (by decide) rfl (by decide) rfl rfl

/-- C6 counterexample: with an established baseline, a sample at
exactly 500 ms (normalised deviation 1/101) is NOT classified as a
spike — `_analyze_jitter` records no spike timestamp — and a sample
whose normalised deviation is exactly 2.5 (RTT 105 against baseline
100, std 1) is NOT classified as a spike either: both comparisons in
the code are strict. -/
theorem c6_counterexample :
    normalized_deviation profile500 sample500 = 1/101 ∧
    is_spike profile500 sample500 = false ∧
    (analyze_jitter profile500 sample500).1.spike_timestamps = [] ∧
    normalized_deviation profileDev sampleDev = 5/2 ∧
    is_spike profileDev sampleDev = false := by
  have hnd : normalized_deviation profile500 sample500 = 1/101 := by
    norm_num [normalized_deviation, profile500, sample500]
  have hsp : is_spike profile500 sample500 = false := by
    norm_num [is_spike, normalized_deviation, profile500, sample500]
  have hnd2 : normalized_deviation profileDev sampleDev = 5/2 := by
    norm_num [normalized_deviation, profileDev, sampleDev, profile500,
      sample500]
  have hsp2 : is_spike profileDev sampleDev = false := by
    norm_num [is_spike, normalized_deviation, profileDev, sampleDev,
      profile500, sample500]
  refine ⟨hnd, hsp, ?_, hnd2, hsp2⟩
  have hcrit : is_critical_moment sample500.game_state = false := by decide
  unfold analyze_jitter
  rw [if_neg (by norm_num [profile500] :
    ¬ profile500.baseline_rtt = 0)]
  dsimp only
  rw [hsp, hcrit]
  norm_num [profile500, sample500]

/-- C6 amended: with an established baseline a sample is a spike iff
`rtt > 500` or `normalised_dev > 2.5`, both strict; a sample at
exactly `rtt = 500` (with deviation within threshold) or exactly
`normalised_dev = 2.5` (with rtt within threshold) is not a spike, and
`_analyze_jitter` records no spike timestamp for it. -/
theorem c6_amended_spike_thresholds_strict (p : LatencyProfile)
    (s : HeartbeatSample) (hb : p.baseline_rtt ≠ 0) :
    (is_spike p s = true ↔
      (500 < s.round_trip_time ∨ 5/2 < normalized_deviation p s)) ∧
    (s.round_trip_time ≤ 500 → normalized_deviation p s ≤ 5/2 →
      is_spike p s = false ∧
      (analyze_jitter p s).1.spike_timestamps = p.spike_timestamps) := by
  constructor
  · simp [is_spike]
  · intro h1 h2
    have hf : is_spike p s = false := by
      simp only [is_spike, Bool.or_eq_false_iff, decide_eq_false_iff_not,
        not_lt]
      exact ⟨h1, h2⟩
    refine ⟨hf, ?_⟩
    unfold analyze_jitter
    rw [if_neg hb]
    dsimp only
    simp only [hf, Bool.false_eq_true, if_false]
    split_ifs <;> rfl

/-- C6 witness: the 500 ms boundary sample goes through
`_analyze_jitter` without a spike. -/
theorem c6_witness :
    is_spike profile500 sample500 = false ∧
    (analyze_jitter profile500 sample500).1.spike_timestamps =
      profile500.spike_timestamps :=
  (c6_amended_spike_thresholds_strict profile500 sample500
      (by norm_num [profile500])).2
    (by norm_num [sample500])
    (by norm_num [normalized_deviation, profile500, sample500])

/-- C7 counterexample: for normalised deviation 4 (so the sample is a
spike and the 60 s window holds one spike), the code's score is
`min(30, 40) + min(30, 5) = 35` while the claim's formula gives
`40 + 5 = 45`: the code caps the first two factors at 30 each, which
the claimed formula omits. -/
theorem c7_counterexample :
    normalized_deviation profileC7 sampleC7 = 4 ∧
    (analyze_jitter profileC7 sampleC7).2.jitter_score = 35 ∧
    spec_jitter_score (analyze_jitter profileC7 sampleC7).1 4 = 45 ∧
    (35 : ℚ) ≠ 45 := by
  have hnd : normalized_deviation profileC7 sampleC7 = 4 := by
    norm_num [normalized_deviation, profileC7, sampleC7, profile500,
      sample500]
  have hsp : is_spike profileC7 sampleC7 = true := by
    norm_num [is_spike, normalized_deviation, profileC7, sampleC7,
      profile500, sample500]
  have hpair : analyze_jitter profileC7 sampleC7 =
      (profileC7post, analysisC7) := by
    have hcrit : is_critical_moment sampleC7.game_state = false := by
      decide
    unfold analyze_jitter
    rw [if_neg (by norm_num [profileC7, profile500] :
      ¬ profileC7.baseline_rtt = 0)]
    dsimp only
    rw [hsp, hcrit]
    norm_num [profileC7, sampleC7, profile500, sample500, profileC7post,
      analysisC7, calculate_jitter_score, calculate_trend,
      classify_connection, normalized_deviation, min_def, List.filter]
  refine ⟨hnd, by rw [hpair]; rfl, ?_, by norm_num⟩
  rw [hpair]
  norm_num [spec_jitter_score, profileC7post, profileC7, profile500,
    min_def, max_def]

/-- C7 amended: `_calculate_jitter_score` equals the claimed clamp
formula only after capping the first two factors:
`score = min(100, min(30, |ndev|·10) + min(30, spikes·5) + crit_term)`
with the critical term present only when `total_critical_moments > 0`;
the result always lies in `[0, 100]`, and it coincides with the
claim's formula exactly when `|ndev|·10 ≤ 30` and `spikes·5 ≤ 30`
(with no phantom critical spikes when no critical moment was seen). -/
theorem c7_amended_jitter_score_capped (p : LatencyProfile) (ndev : ℚ) :
    calculate_jitter_score p ndev =
      min 100 (min 30 (|ndev| * 10) +
        min 30 ((p.spike_timestamps.length : ℚ) * 5) +
        (if 0 < p.total_critical_moments then
          ((p.spikes_during_critical : ℚ) /
            (p.total_critical_moments : ℚ)) * 40
         else 0)) ∧
    0 ≤ calculate_jitter_score p ndev ∧
    calculate_jitter_score p ndev ≤ 100 ∧
    (|ndev| * 10 ≤ 30 → (p.spike_timestamps.length : ℚ) * 5 ≤ 30 →
      (p.total_critical_moments = 0 → p.spikes_during_critical = 0) →
      calculate_jitter_score p ndev = spec_jitter_score p ndev) := by
  have hform : calculate_jitter_score p ndev =
      min 100 (min 30 (|ndev| * 10) +
        min 30 ((p.spike_timestamps.length : ℚ) * 5) +
        (if 0 < p.total_critical_moments then
          ((p.spikes_during_critical : ℚ) /
            (p.total_critical_moments : ℚ)) * 40
         else 0)) := by
    simp only [calculate_jitter_score]
    split_ifs <;> ring_nf
  have ha : (0 : ℚ) ≤ min 30 (|ndev| * 10) :=
    le_min (by norm_num) (by positivity)
  have hb : (0 : ℚ) ≤ min 30 ((p.spike_timestamps.length : ℚ) * 5) :=
    le_min (by norm_num) (by positivity)
  have hc : (0 : ℚ) ≤
      (if 0 < p.total_critical_moments then
        ((p.spikes_during_critical : ℚ) /
          (p.total_critical_moments : ℚ)) * 40
       else 0) := by
    split_ifs
    · positivity
    · exact le_refl 0
  refine ⟨hform, ?_, ?_, ?_⟩
  · rw [hform]
    exact le_min (by norm_num) (by linarith)
  · rw [hform]
    exact min_le_left _ _
  · intro h1 h2 h3
    rw [hform]
    unfold spec_jitter_score
    rw [min_eq_right h1, min_eq_right h2]
    by_cases ht : 0 < p.total_critical_moments
    · rw [if_pos ht]
      have hmax : max 1 p.total_critical_moments = p.total_critical_moments :=
        max_eq_right ht
      rw [hmax]
      have hsum : (0 : ℚ) ≤ |ndev| * 10 + (p.spike_timestamps.length : ℚ) * 5 +
          ((p.spikes_during_critical : ℚ) /
            (p.total_critical_moments : ℚ)) * 40 := by
        positivity
      rw [max_eq_right hsum]
    · rw [if_neg ht]
      have h0 : p.total_critical_moments = 0 := Nat.eq_zero_of_not_pos ht
      rw [h0, h3 h0]
      norm_num
      have hsum : (0 : ℚ) ≤ |ndev| * 10 +
          (p.spike_timestamps.length : ℚ) * 5 := by
        positivity
      rw [max_eq_right hsum]

/-- C7 witness: with both factors under their caps the code's score
agrees with the claim's formula (deviation 2, one spike: score 25). -/
theorem c7_witness :
    calculate_jitter_score profileC7w 2 = spec_jitter_score profileC7w 2 ∧
    calculate_jitter_score profileC7w 2 = 25 :=
  ⟨(c7_amended_jitter_score_capped profileC7w 2).2.2.2
      (by norm_num) (by norm_num [profileC7w, profileC7, profile500])
      (fun _ => by norm_num [profileC7w, profileC7, profile500]),
   by
    rw [(c7_amended_jitter_score_capped profileC7w 2).1]
    norm_num [profileC7w, profileC7, profile500, min_def]⟩

set_option maxHeartbeats 4000000 in
/-- C9: for a profile that is neither frozen nor in quarantine,
`LKShield.verify_player` returns the `DENIED_LOW_TRUST` verdict with
`can_proceed = false` if and only if `trust_score < 30`; no later
check ever produces that verdict. -/
theorem c9_low_trust_iff (profile : PlayerSecurityProfile) (bet : ℚ)
    (inq : Bool) (retry : ℤ) (rc fc : ℕ)
    (hfrozen : profile.is_frozen = false) (hq : inq = false) :
    ((verify_player profile bet inq retry rc fc).verdict =
        ShieldVerdict.DENIED_LOW_TRUST ∧
      (verify_player profile bet inq retry rc fc).can_proceed = false) ↔
      profile.trust_score < 30 := by
  unfold verify_player
  rw [hfrozen, hq]
  simp only [Bool.false_eq_true, if_false]
  by_cases ht : profile.trust_score < 30
  · rw [if_pos ht]
    simp [ht]
  · rw [if_neg ht]
    refine iff_of_false ?_ ht
    rintro ⟨h1, -⟩
    simp only [apply_ite ShieldCheckResult.verdict] at h1
    have hne : ∀ (c : Prop) (inst : Decidable c) (a b : ShieldVerdict),
        a ≠ ShieldVerdict.DENIED_LOW_TRUST →
        b ≠ ShieldVerdict.DENIED_LOW_TRUST →
        @ite _ c inst a b ≠ ShieldVerdict.DENIED_LOW_TRUST := by
      intro c inst a b ha hb
      by_cases hcc : c
      · rwa [if_pos hcc]
      · rwa [if_neg hcc]
    exact hne _ _ _ _ (by simp)
      (hne _ _ _ _ (by simp)
        (hne _ _ _ _ (by simp) (by simp))) h1

/-- C9 witness: trust score 29 is denied for low trust; trust score
exactly 30 is not. -/
theorem c9_witness :
    ((verify_player p29 25 false 0 1 0).verdict =
        ShieldVerdict.DENIED_LOW_TRUST ∧
      (verify_player p29 25 false 0 1 0).can_proceed = false) ∧
    ¬ ((verify_player p30 25 false 0 1 0).verdict =
        ShieldVerdict.DENIED_LOW_TRUST ∧
      (verify_player p30 25 false 0 1 0).can_proceed = false) :=
  ⟨(c9_low_trust_iff p29 25 false 0 1 0 rfl rfl).mpr
      (by norm_num [p29]),
   fun h => absurd ((c9_low_trust_iff p30 25 false 0 1 0 rfl rfl).mp h)
      (by norm_num [p30, p29])⟩

end Kompite
